import Mathlib

/-!
Verification of the safe arithmetic expression evaluator of the calculator
tool (src/src/app/tools/calculator.py).

The evaluator's own code (`_safe_eval_math` / `_eval`, the operator
dispatch tables, and the `calculator` wrapper) is embedded faithfully
below.  The source delegates parsing to the host language's
general-purpose expression parser (`ast.parse`), which is not part of this
repository; following the specification, parsing is modelled from the
spec's grammar (numeric literals, parentheses, unary sign, the six binary
operators with standard precedence and a right-associative power
operator).

Numbers: the source computes with IEEE-754 doubles.  The embedding
idealises float values as exact rationals; a float value that the
rational idealisation cannot express (the result of a fractional power of
a positive base) is kept as an opaque `PyVal.floatU`, and a complex value
(which Python produces for a fractional power of a negative base) as
`PyVal.complexF`.  No claim depends on the exact magnitude of either.
-/

/-- Kinds of binary-operator nodes the host parser can produce.  The first
six are the whitelisted ones (keys of `_ALLOWED_BIN_OPS`); the rest are
examples of operators Python parses but the table does not contain. -/
inductive BinK
  | add | sub | mult | div | pow | mod
  | floorDiv | bitOr | bitAnd | lshift
deriving DecidableEq

/-- Kinds of unary-operator nodes.  `uadd`/`usub` are the whitelisted ones
(keys of `_ALLOWED_UNARY_OPS`); `notOp`/`invert` are parsable but not
whitelisted. -/
inductive UnK
  | uadd | usub
  | notOp | invert
deriving DecidableEq

/-- Python constant values as they appear in `ast.Constant`.  In Python,
`bool` is a subclass of `int`, which matters for the
`isinstance(node.value, (int, float))` check in `_eval`. -/
inductive Const
  | int (n : ℤ)
  | float (q : ℚ)
  | bool (b : Bool)
  | str (s : String)
  | none
deriving DecidableEq

/-- The syntax-tree shapes relevant to the evaluator: the shapes the
whitelist accepts, plus representative shapes the host parser can build
and `_eval` must reject (calls, names, comparisons, list literals,
attribute access). -/
inductive Ast
  | expression (body : Ast)
  | constant (c : Const)
  | binOp (op : BinK) (l r : Ast)
  | unaryOp (op : UnK) (a : Ast)
  | call (f : Ast) (args : List Ast)
  | name (id : String)
  | compare (l r : Ast)
  | listLit (elts : List Ast)
  | attrAccess (v : Ast) (field : String)

/-- The exception kinds the evaluator and the tool wrapper can see.
`str(exc)` of each is its message. -/
inductive PyExc
  | valueError (msg : String)
  | zeroDivisionError (msg : String)
  | typeError (msg : String)
  | attributeError (msg : String)
  | syntaxError (msg : String)
deriving DecidableEq

def PyExc.message : PyExc → String
  | .valueError m => m
  | .zeroDivisionError m => m
  | .typeError m => m
  | .attributeError m => m
  | .syntaxError m => m

/-- Runtime values flowing through `_eval`.  `float q` is a double
idealised as the exact rational `q`; `floatU` is a genuine float whose
exact value the rational idealisation cannot express (fractional power of
a positive base, and values derived from one); `complexF` is a complex
number (Python returns one for a fractional power of a negative base). -/
inductive PyVal
  | float (q : ℚ)
  | floatU
  | complexF
deriving DecidableEq

/-- A single quote character, used to build Python error-message text. -/
def squote : String := (Char.ofNat 39).toString

def unsupportedMsg : String := "Only numeric math expressions are supported."

/-- Message of the AttributeError raised by `result.is_integer()` when
`_safe_eval_math` has returned a complex number. -/
def attrMsg : String :=
  squote ++ "complex" ++ squote ++ " object has no attribute " ++ squote ++ "is_integer" ++ squote

def zeroPowMsg : String := "0.0 cannot be raised to a negative power"

/-- `operator.add` on the value domain: float addition is exact on the
rational idealisation; any complex operand gives a complex result. -/
def pyAdd : PyVal → PyVal → Except PyExc PyVal
  | .float a, .float b => .ok (.float (a + b))
  | .complexF, _ => .ok .complexF
  | _, .complexF => .ok .complexF
  | _, _ => .ok .floatU

/-- `operator.sub` on the value domain. -/
def pySub : PyVal → PyVal → Except PyExc PyVal
  | .float a, .float b => .ok (.float (a - b))
  | .complexF, _ => .ok .complexF
  | _, .complexF => .ok .complexF
  | _, _ => .ok .floatU

/-- `operator.mul` on the value domain. -/
def pyMul : PyVal → PyVal → Except PyExc PyVal
  | .float a, .float b => .ok (.float (a * b))
  | .complexF, _ => .ok .complexF
  | _, .complexF => .ok .complexF
  | _, _ => .ok .floatU

/-- `operator.truediv` on the value domain: true division, raising
ZeroDivisionError on a zero divisor (for any numerator kind).  A divisor
abstracted as `floatU` arises only from a positive-base power and is
treated as nonzero. -/
def pyDiv : PyVal → PyVal → Except PyExc PyVal
  | .float a, .float b =>
    if b = 0 then .error (.zeroDivisionError "float division by zero")
    else .ok (.float (a / b))
  | .complexF, .float b =>
    if b = 0 then .error (.zeroDivisionError "complex division by zero")
    else .ok .complexF
  | .floatU, .float b =>
    if b = 0 then .error (.zeroDivisionError "float division by zero")
    else .ok .floatU
  | .complexF, _ => .ok .complexF
  | _, .complexF => .ok .complexF
  | _, _ => .ok .floatU

/-- `operator.mod` on the value domain: Python float `%` is floored
modulo, `a - b * floor(a / b)`; it raises ZeroDivisionError on a zero
divisor and TypeError when either operand is complex. -/
def pyMod : PyVal → PyVal → Except PyExc PyVal
  | .float a, .float b =>
    if b = 0 then .error (.zeroDivisionError "float modulo")
    else .ok (.float (a - b * (⌊a / b⌋ : ℤ)))
  | .floatU, .float b =>
    if b = 0 then .error (.zeroDivisionError "float modulo")
    else .ok .floatU
  | .float _, .floatU => .ok .floatU
  | .floatU, .floatU => .ok .floatU
  | _, _ => .error (.typeError "unsupported operand type(s) for %")

/-- `operator.pow` on the value domain.  An integral exponent gives an
exact rational power (ZeroDivisionError for a negative power of zero); a
fractional exponent of a negative base yields a complex number (Python 3
semantics), of zero yields zero or ZeroDivisionError, and of a positive
base yields a positive float outside the rational idealisation. -/
def pyPow : PyVal → PyVal → Except PyExc PyVal
  | .float a, .float b =>
    if b.den = 1 then
      if a = 0 ∧ b < 0 then .error (.zeroDivisionError zeroPowMsg)
      else .ok (.float (a ^ b.num))
    else
      if a = 0 then
        if b < 0 then .error (.zeroDivisionError zeroPowMsg)
        else .ok (.float 0)
      else if a < 0 then .ok .complexF
      else .ok .floatU
  | .complexF, _ => .ok .complexF
  | _, .complexF => .ok .complexF
  | _, _ => .ok .floatU

/-- `operator.neg` on the value domain. -/
def pyNeg : PyVal → PyVal
  | .float q => .float (-q)
  | .floatU => .floatU
  | .complexF => .complexF

/-- The `_ALLOWED_BIN_OPS` dispatch table: the six whitelisted binary
operator kinds mapped to their implementations; every other kind is
absent. -/
def ALLOWED_BIN_OPS : BinK → Option (PyVal → PyVal → Except PyExc PyVal)
  | .add => some pyAdd
  | .sub => some pySub
  | .mult => some pyMul
  | .div => some pyDiv
  | .pow => some pyPow
  | .mod => some pyMod
  | _ => none

/-- The `_ALLOWED_UNARY_OPS` dispatch table: unary plus is the identity,
unary minus is negation; every other kind is absent. -/
def ALLOWED_UNARY_OPS : UnK → Option (PyVal → PyVal)
  | .uadd => some (fun value => value)
  | .usub => some pyNeg
  | _ => none

/-- The recursive `_eval` of `_safe_eval_math`: unwrap `Expression`;
accept a `Constant` whose value is an `int` or `float` (in Python a
`bool` passes this `isinstance` check because `bool` subclasses `int`);
dispatch a `BinOp`/`UnaryOp` through the whitelist table, evaluating the
left operand before the right; raise ValueError on everything else. -/
def evalNode : Ast → Except PyExc PyVal
  | .expression b => evalNode b
  | .constant c =>
    match c with
    | .int n => .ok (.float (n : ℚ))
    | .float q => .ok (.float q)
    | .bool b => .ok (.float (if b then 1 else 0))
    | _ => .error (.valueError unsupportedMsg)
  | .binOp op l r =>
    match ALLOWED_BIN_OPS op with
    | some f =>
      match evalNode l with
      | .error e => .error e
      | .ok a =>
        match evalNode r with
        | .error e => .error e
        | .ok b => f a b
    | none => .error (.valueError unsupportedMsg)
  | .unaryOp op a =>
    match ALLOWED_UNARY_OPS op with
    | some f =>
      match evalNode a with
      | .error e => .error e
      | .ok v => .ok (f v)
    | none => .error (.valueError unsupportedMsg)
  | _ => .error (.valueError unsupportedMsg)

/-- Tokens of the arithmetic grammar. -/
inductive Tok
  | num (c : Const)
  | plus | minus | star | slash | percent | dstar | lparen | rparen
deriving DecidableEq

def digitsVal (ds : List Char) : Nat :=
  ds.foldl (fun a c => a * 10 + (c.toNat - 48)) 0

def consTok (t : Tok) : Except PyExc (List Tok) → Except PyExc (List Tok)
  | .ok l => .ok (t :: l)
  | .error e => .error e

def lexMsg : String := "invalid character in expression"

def fuelMsg : String := "expression too long"

/-- Modelled from the spec: the tokenizer of the host parsing facility
(`ast.parse`, not part of this repository), restricted to the spec's
grammar — decimal integer and floating-point literals, the operator
symbols, and parentheses.  The fuel argument only bounds recursion; a
fuel of one more than the character count always suffices because every
step consumes at least one character. -/
def lexChars : Nat → List Char → Except PyExc (List Tok)
  | 0, _ => .error (.syntaxError fuelMsg)
  | _ + 1, [] => .ok []
  | f + 1, c :: cs =>
    if c = ' ' then lexChars f cs
    else if c = '+' then consTok .plus (lexChars f cs)
    else if c = '-' then consTok .minus (lexChars f cs)
    else if c = '/' then consTok .slash (lexChars f cs)
    else if c = '%' then consTok .percent (lexChars f cs)
    else if c = '(' then consTok .lparen (lexChars f cs)
    else if c = ')' then consTok .rparen (lexChars f cs)
    else if c = '*' then
      match cs with
      | '*' :: cs2 => consTok .dstar (lexChars f cs2)
      | _ => consTok .star (lexChars f cs)
    else if c.isDigit then
      let ds := (c :: cs).takeWhile Char.isDigit
      let rest := (c :: cs).dropWhile Char.isDigit
      match rest with
      | '.' :: rest2 =>
        let fs := rest2.takeWhile Char.isDigit
        let rest3 := rest2.dropWhile Char.isDigit
        consTok
          (.num (.float ((digitsVal ds : ℚ) + (digitsVal fs : ℚ) / (10 : ℚ) ^ fs.length)))
          (lexChars f rest3)
      | _ => consTok (.num (.int (digitsVal ds : ℤ))) (lexChars f rest)
    else .error (.syntaxError lexMsg)

def parenMsg : String := "expected a closing parenthesis"

def atomMsg : String := "expected a number or parenthesized expression"

def trailMsg : String := "invalid syntax after expression"

/-- Modelled from the spec: an atom of the grammar — a numeric literal or
a parenthesized sub-expression (parsed by the given expression parser). -/
def parseAtom (pe : List Tok → Except PyExc (Ast × List Tok)) :
    List Tok → Except PyExc (Ast × List Tok)
  | .num c :: ts1 => .ok (.constant c, ts1)
  | .lparen :: ts1 =>
    match pe ts1 with
    | .ok (a, .rparen :: ts2) => .ok (a, ts2)
    | .ok (_, _) => .error (.syntaxError parenMsg)
    | .error e => .error e
  | _ => .error (.syntaxError atomMsg)

/-- Modelled from the spec: unary-sign and power level of the grammar.
A sign applies to a unary expression; a power is an atom optionally
followed by a right-associative `**` whose right operand is again a unary
expression (so the sign binds looser than `**` on the left and is allowed
on the right, the conventional precedence). -/
def parseU (pe : List Tok → Except PyExc (Ast × List Tok)) :
    Nat → List Tok → Except PyExc (Ast × List Tok)
  | 0, _ => .error (.syntaxError fuelMsg)
  | f + 1, ts =>
    match ts with
    | .plus :: ts1 =>
      match parseU pe f ts1 with
      | .ok (a, r) => .ok (.unaryOp .uadd a, r)
      | .error e => .error e
    | .minus :: ts1 =>
      match parseU pe f ts1 with
      | .ok (a, r) => .ok (.unaryOp .usub a, r)
      | .error e => .error e
    | _ =>
      match parseAtom pe ts with
      | .error e => .error e
      | .ok (a, ts1) =>
        match ts1 with
        | .dstar :: ts2 =>
          match parseU pe f ts2 with
          | .ok (b, r) => .ok (.binOp .pow a b, r)
          | .error e => .error e
        | _ => .ok (a, ts1)

/-- Modelled from the spec: the left-associative multiplicative level
(`*`, `/`, `%`). -/
def parseTermRest (pe : List Tok → Except PyExc (Ast × List Tok)) :
    Nat → Ast → List Tok → Except PyExc (Ast × List Tok)
  | 0, _, _ => .error (.syntaxError fuelMsg)
  | f + 1, acc, ts =>
    match ts with
    | .star :: ts1 =>
      match parseU pe f ts1 with
      | .ok (b, r) => parseTermRest pe f (.binOp .mult acc b) r
      | .error e => .error e
    | .slash :: ts1 =>
      match parseU pe f ts1 with
      | .ok (b, r) => parseTermRest pe f (.binOp .div acc b) r
      | .error e => .error e
    | .percent :: ts1 =>
      match parseU pe f ts1 with
      | .ok (b, r) => parseTermRest pe f (.binOp .mod acc b) r
      | .error e => .error e
    | _ => .ok (acc, ts)

def parseTerm (pe : List Tok → Except PyExc (Ast × List Tok)) :
    Nat → List Tok → Except PyExc (Ast × List Tok)
  | 0, _ => .error (.syntaxError fuelMsg)
  | f + 1, ts =>
    match parseU pe f ts with
    | .ok (a, r) => parseTermRest pe f a r
    | .error e => .error e

/-- Modelled from the spec: the left-associative additive level
(`+`, `-`). -/
def parseSumRest (pe : List Tok → Except PyExc (Ast × List Tok)) :
    Nat → Ast → List Tok → Except PyExc (Ast × List Tok)
  | 0, _, _ => .error (.syntaxError fuelMsg)
  | f + 1, acc, ts =>
    match ts with
    | .plus :: ts1 =>
      match parseTerm pe f ts1 with
      | .ok (b, r) => parseSumRest pe f (.binOp .add acc b) r
      | .error e => .error e
    | .minus :: ts1 =>
      match parseTerm pe f ts1 with
      | .ok (b, r) => parseSumRest pe f (.binOp .sub acc b) r
      | .error e => .error e
    | _ => .ok (acc, ts)

def parseSum (pe : List Tok → Except PyExc (Ast × List Tok)) :
    Nat → List Tok → Except PyExc (Ast × List Tok)
  | 0, _ => .error (.syntaxError fuelMsg)
  | f + 1, ts =>
    match parseTerm pe f ts with
    | .ok (a, r) => parseSumRest pe f a r
    | .error e => .error e

/-- Modelled from the spec: the expression level, tying the recursive
knot for parenthesized sub-expressions.  The fuel only bounds recursion:
every recursive step either consumes a token or descends one of the
fixed precedence levels, so four times the token count (plus a constant)
always suffices and `pyParse` passes that. -/
def parseExprTop : Nat → List Tok → Except PyExc (Ast × List Tok)
  | 0, _ => .error (.syntaxError fuelMsg)
  | f + 1, ts => parseSum (parseExprTop f) (f + 1) ts

/-- Modelled from the spec: `ast.parse(expr, mode="eval")` restricted to
the spec's grammar — tokenize, parse a full expression, require the whole
input to be consumed, and wrap the body in an `Expression` node. -/
def pyParse (s : String) : Except PyExc Ast :=
  match lexChars (s.toList.length + 1) s.toList with
  | .error e => .error e
  | .ok toks =>
    match parseExprTop (4 * (toks.length + 1)) toks with
    | .ok (a, []) => .ok (.expression a)
    | .ok (_, _ :: _) => .error (.syntaxError trailMsg)
    | .error e => .error e

/-- `_safe_eval_math`: parse the text, then run the restricted recursive
evaluation over the tree. -/
def safe_eval_math (expr : String) : Except PyExc PyVal :=
  match pyParse expr with
  | .ok t => evalNode t
  | .error e => .error e

def floatUStr : String := "<float>"

/-- Decimal digits of a fractional part `0 ≤ q < 1`, stopping at a zero
remainder or after the fuel (17 digits, the most a double's shortest
round-trip representation needs) runs out. -/
def fracDigits : Nat → ℚ → String
  | 0, _ => ""
  | n + 1, q =>
    if q = 0 then ""
    else toString ⌊q * 10⌋ ++ fracDigits n (q * 10 - (⌊q * 10⌋ : ℤ))

def floatStrNN (q : ℚ) : String :=
  toString ⌊q⌋ ++ "." ++ (if q - (⌊q⌋ : ℤ) = 0 then "0" else fracDigits 17 (q - (⌊q⌋ : ℤ)))

/-- `str(result)` for a non-integral float, idealised: sign, integer
part, decimal point, fractional digits. -/
def floatStr (q : ℚ) : String :=
  if q < 0 then "-" ++ floatStrNN (-q) else floatStrNN q

/-- The `calculator` tool: run `_safe_eval_math`; render an integral
result via `str(int(result))` and any other float via `str(result)`;
`result.is_integer()` on a complex value raises AttributeError; every
exception is caught and rendered as `"Error: {exc}"`.  (`floatUStr`
stands for the host's decimal rendering of a float outside the rational
idealisation; no claim depends on its text.) -/
def calculator (expression : String) : String :=
  match safe_eval_math expression with
  | .error e => "Error: " ++ e.message
  | .ok (.float q) => if q.den = 1 then toString q.num else floatStr q
  | .ok .floatU => floatUStr
  | .ok .complexF => "Error: " ++ attrMsg

/-- The input string of the classic injection attempt,
`__import__('os').system('ls')`, built with explicit quote characters. -/
def importStr : String :=
  "__import__(" ++ squote ++ "os" ++ squote ++ ").system(" ++ squote ++ "ls" ++ squote ++ ")"

/-- A node that is not one of the shapes the whitelist accepts: a call, a
variable reference, a comparison, a string or collection literal, an
attribute access, a `None` literal, or an operator node whose operator is
absent from the dispatch tables. -/
inductive BadNode : Ast → Prop
  | call (f : Ast) (args : List Ast) : BadNode (.call f args)
  | name (id : String) : BadNode (.name id)
  | compare (l r : Ast) : BadNode (.compare l r)
  | listLit (elts : List Ast) : BadNode (.listLit elts)
  | attrAccess (v : Ast) (field : String) : BadNode (.attrAccess v field)
  | strConst (s : String) : BadNode (.constant (.str s))
  | noneConst : BadNode (.constant .none)
  | badBin (op : BinK) (l r : Ast) :
      ALLOWED_BIN_OPS op = none → BadNode (.binOp op l r)
  | badUnary (op : UnK) (a : Ast) :
      ALLOWED_UNARY_OPS op = none → BadNode (.unaryOp op a)

/-- A tree containing a disallowed node somewhere along a path the
evaluator walks. -/
inductive ContainsBad : Ast → Prop
  | here (t : Ast) : BadNode t → ContainsBad t
  | exprBody (b : Ast) : ContainsBad b → ContainsBad (.expression b)
  | binL (op : BinK) (l r : Ast) : ContainsBad l → ContainsBad (.binOp op l r)
  | binR (op : BinK) (l r : Ast) : ContainsBad r → ContainsBad (.binOp op l r)
  | unOperand (op : UnK) (a : Ast) : ContainsBad a → ContainsBad (.unaryOp op a)

/-- Spec-side big-step semantics of a syntax tree, written from the
spec's data model and algorithm (§3, §4.1): numeric literals denote their
value, the six binary operators denote exact real arithmetic (`/` and `%`
defined for a nonzero divisor, `%` the floored modulo whose result
follows the divisor's sign, `**` for an integral exponent that is not a
negative power of zero), and unary sign denotes identity or negation.
Used to state that the code's evaluator refines the spec's mathematics on
every tree where the spec defines a real value. -/
inductive SpecEval : Ast → ℚ → Prop
  | int (n : ℤ) : SpecEval (.constant (.int n)) n
  | float (q : ℚ) : SpecEval (.constant (.float q)) q
  | add (l r : Ast) (x y : ℚ) :
      SpecEval l x → SpecEval r y → SpecEval (.binOp .add l r) (x + y)
  | sub (l r : Ast) (x y : ℚ) :
      SpecEval l x → SpecEval r y → SpecEval (.binOp .sub l r) (x - y)
  | mul (l r : Ast) (x y : ℚ) :
      SpecEval l x → SpecEval r y → SpecEval (.binOp .mult l r) (x * y)
  | div (l r : Ast) (x y : ℚ) :
      SpecEval l x → SpecEval r y → y ≠ 0 → SpecEval (.binOp .div l r) (x / y)
  | mod (l r : Ast) (x y : ℚ) :
      SpecEval l x → SpecEval r y → y ≠ 0 →
      SpecEval (.binOp .mod l r) (x - y * (⌊x / y⌋ : ℤ))
  | pow (l r : Ast) (x y : ℚ) :
      SpecEval l x → SpecEval r y → y.den = 1 → ¬(x = 0 ∧ y < 0) →
      SpecEval (.binOp .pow l r) (x ^ y.num)
  | uadd (a : Ast) (x : ℚ) : SpecEval a x → SpecEval (.unaryOp .uadd a) x
  | usub (a : Ast) (x : ℚ) : SpecEval a x → SpecEval (.unaryOp .usub a) (-x)
  | expr (b : Ast) (x : ℚ) : SpecEval b x → SpecEval (.expression b) x

/-- Floored remainder rewritten through the fractional part, for the sign
and bound arguments about `%`. -/
theorem sub_floor_mul_eq_fract (a b : ℚ) (hb : b ≠ 0) :
    a - b * (⌊a / b⌋ : ℤ) = b * Int.fract (a / b) := by
  have h : b * (a / b) = a := by field_simp
  rw [Int.fract, mul_sub, h]

/-- Claim C1: for every input string, evaluation fails whenever the
string does not parse in the supported grammar or the parsed tree
contains a node other than a numeric literal, a whitelisted binary
operator, or a whitelisted unary operator (calls, variable references,
comparisons, string/collection literals, attribute access, and operator
nodes outside the dispatch tables); in particular the
`__import__('os').system('ls')` injection attempt fails, as do `"2 + "`
and `"x + 1"`. -/
theorem c1_invalid_rejected :
    (∀ s e, pyParse s = .error e → ∃ m, safe_eval_math s = .error m) ∧
    (∀ t, ContainsBad t → ∃ e, evalNode t = .error e) ∧
    (∃ m, safe_eval_math importStr = .error m) ∧
    (∃ m, safe_eval_math "2 + " = .error m) ∧
    (∃ m, safe_eval_math "x + 1" = .error m) := by
  refine ⟨?_, ?_, ⟨.syntaxError lexMsg, rfl⟩, ⟨.syntaxError atomMsg, rfl⟩,
    ⟨.syntaxError lexMsg, rfl⟩⟩
  · intro s e h
    exact ⟨e, by simp [safe_eval_math, h]⟩
  · intro t h
    induction h with
    | here t hb =>
      cases hb with
      | call f args => exact ⟨.valueError unsupportedMsg, rfl⟩
      | name id => exact ⟨.valueError unsupportedMsg, rfl⟩
      | compare l r => exact ⟨.valueError unsupportedMsg, rfl⟩
      | listLit elts => exact ⟨.valueError unsupportedMsg, rfl⟩
      | attrAccess v field => exact ⟨.valueError unsupportedMsg, rfl⟩
      | strConst s => exact ⟨.valueError unsupportedMsg, rfl⟩
      | noneConst => exact ⟨.valueError unsupportedMsg, rfl⟩
      | badBin op l r hop => exact ⟨.valueError unsupportedMsg, by simp [evalNode, hop]⟩
      | badUnary op a hop => exact ⟨.valueError unsupportedMsg, by simp [evalNode, hop]⟩
    | exprBody b hcb ih =>
      obtain ⟨e, he⟩ := ih
      exact ⟨e, by simp [evalNode, he]⟩
    | binL op l r hcb ih =>
      obtain ⟨e, he⟩ := ih
      cases hop : ALLOWED_BIN_OPS op with
      | none => exact ⟨.valueError unsupportedMsg, by simp [evalNode, hop]⟩
      | some fo => exact ⟨e, by simp [evalNode, hop, he]⟩
    | binR op l r hcb ih =>
      obtain ⟨e, he⟩ := ih
      cases hop : ALLOWED_BIN_OPS op with
      | none => exact ⟨.valueError unsupportedMsg, by simp [evalNode, hop]⟩
      | some fo =>
        cases hl : evalNode l with
        | error e2 => exact ⟨e2, by simp [evalNode, hop, hl]⟩
        | ok a => exact ⟨e, by simp [evalNode, hop, hl, he]⟩
    | unOperand op a hcb ih =>
      obtain ⟨e, he⟩ := ih
      cases hop : ALLOWED_UNARY_OPS op with
      | none => exact ⟨.valueError unsupportedMsg, by simp [evalNode, hop]⟩
      | some fo => exact ⟨e, by simp [evalNode, hop, he]⟩

/-- Witness for C1 at concrete inputs: an unbalanced parenthesis is a
parse failure and a variable reference is rejected by the evaluator. -/
theorem c1_invalid_rejected_witness :
    (∃ m, safe_eval_math "(2" = .error m) ∧
    (∃ e, evalNode (.name "x") = .error e) := by
  constructor
  · exact c1_invalid_rejected.1 "(2" (.syntaxError parenMsg) rfl
  · exact c1_invalid_rejected.2.1 (.name "x") (ContainsBad.here _ (BadNode.name "x"))

/-- Claim C2: every failure of the evaluator reaches the caller as the
single uniform error channel, `"Error: " ++ message`, and a complex
result (which makes the formatting step fail) is converted to the same
channel; the wrapper is a total function, so no exception escapes. -/
theorem c2_uniform_error_channel :
    (∀ s e, safe_eval_math s = .error e → calculator s = "Error: " ++ PyExc.message e) ∧
    (∀ s, safe_eval_math s = .ok .complexF → calculator s = "Error: " ++ attrMsg) := by
  constructor
  · intro s e h
    simp [calculator, h]
  · intro s h
    simp [calculator, h]

/-- Witness for C2 at concrete inputs: division by zero and the complex
power both render through the uniform error channel. -/
theorem c2_uniform_error_channel_witness :
    calculator "1 / 0" =
      "Error: " ++ PyExc.message (.zeroDivisionError "float division by zero") ∧
    calculator "(-8) ** (1/3)" = "Error: " ++ attrMsg := by
  constructor
  · exact c2_uniform_error_channel.1 "1 / 0" (.zeroDivisionError "float division by zero")
      (by with_unfolding_all rfl)
  · exact c2_uniform_error_channel.2 "(-8) ** (1/3)" (by with_unfolding_all rfl)

/-- Claim C4 (code bug): a boolean literal is NOT rejected: because
Python's `bool` is a subclass of `int`, `ast.Constant(True)` passes the
`isinstance(node.value, (int, float))` check of `_eval` and evaluates to
`1.0`, so `True + 1` evaluates to `2` instead of failing; a string
literal, by contrast, is rejected as the claim states. -/
theorem c4_bool_literal_code_bug :
    evalNode (.constant (.bool true)) = .ok (.float 1) ∧
    evalNode (.binOp .add (.constant (.bool true)) (.constant (.int 1))) = .ok (.float 2) ∧
    evalNode (.constant (.str "x")) = .error (.valueError unsupportedMsg) := by
  refine ⟨rfl, ?_, rfl⟩
  show pyAdd (.float 1) (.float ((1 : ℤ) : ℚ)) = .ok (.float 2)
  norm_num [pyAdd]

/-- Claim C9: evaluation is deterministic and pure — the embedding of the
evaluator and of the tool wrapper is a mathematical function of the input
string alone, so two calls on the same string give identical results. -/
theorem c9_deterministic (s : String) :
    safe_eval_math s = safe_eval_math s ∧ calculator s = calculator s :=
  ⟨rfl, rfl⟩

/-- Claim C3 counterexample: contrary to the claim, the evaluator does
not fail with a typed error on `(-8) ** (1/3)` — `_safe_eval_math`
returns a complex value (Python 3 float power of a negative base with a
fractional exponent yields a complex number, and the whitelist walk
passes it through). -/
theorem c3_counterexample :
    safe_eval_math "(-8) ** (1/3)" = .ok .complexF := by
  with_unfolding_all rfl

/-- Claim C3 as amended: a power with negative base and fractional
exponent makes the evaluator return a complex value rather than fail, but
the calculator tool converts any complex result into the uniform
`"Error: ..."` failure while formatting (complex numbers have no
`is_integer`), so a caller never observes a complex-typed result; in
particular `(-8) ** (1/3)` renders as the uniform error. -/
theorem c3_amended_complex_to_error :
    (∀ a b : ℚ, a < 0 → b.den ≠ 1 → pyPow (.float a) (.float b) = .ok .complexF) ∧
    (∀ s, safe_eval_math s = .ok .complexF → calculator s = "Error: " ++ attrMsg) ∧
    calculator "(-8) ** (1/3)" = "Error: " ++ attrMsg := by
  refine ⟨?_, ?_, by with_unfolding_all rfl⟩
  · intro a b ha hden
    have ha0 : ¬a = 0 := ne_of_lt ha
    simp [pyPow, hden, ha0, ha]
  · intro s h
    simp [calculator, h]

/-- Witness for the amended C3 at concrete inputs. -/
theorem c3_amended_witness :
    pyPow (.float (-8)) (.float (1 / 3)) = .ok .complexF ∧
    calculator "(-8) ** (1/3)" = "Error: " ++ attrMsg := by
  constructor
  · exact c3_amended_complex_to_error.1 (-8) (1 / 3) (by norm_num) (by with_unfolding_all decide)
  · exact c3_amended_complex_to_error.2.1 "(-8) ** (1/3)" (by with_unfolding_all rfl)

/-- Claim C5: a division whose right operand evaluates to zero fails
(whatever the left operand evaluated to), `/` is true division for every
nonzero divisor, and `1 / 0` renders as the propagated
division-by-zero error. -/
theorem c5_div_by_zero :
    (∀ l r : Ast, evalNode r = .ok (.float 0) →
      ∃ e, evalNode (.binOp .div l r) = .error e) ∧
    (∀ a b : ℚ, b ≠ 0 → pyDiv (.float a) (.float b) = .ok (.float (a / b))) ∧
    calculator "1 / 0" = "Error: float division by zero" := by
  refine ⟨?_, ?_, by with_unfolding_all rfl⟩
  · intro l r hr
    cases hl : evalNode l with
    | error e => exact ⟨e, by simp [evalNode, ALLOWED_BIN_OPS, hl]⟩
    | ok a =>
      cases a with
      | float x =>
        exact ⟨.zeroDivisionError "float division by zero",
          by simp [evalNode, ALLOWED_BIN_OPS, hl, hr, pyDiv]⟩
      | floatU =>
        exact ⟨.zeroDivisionError "float division by zero",
          by simp [evalNode, ALLOWED_BIN_OPS, hl, hr, pyDiv]⟩
      | complexF =>
        exact ⟨.zeroDivisionError "complex division by zero",
          by simp [evalNode, ALLOWED_BIN_OPS, hl, hr, pyDiv]⟩
  · intro a b hb
    simp [pyDiv, hb]

/-- Witness for C5 at concrete inputs. -/
theorem c5_div_by_zero_witness :
    (∃ e, evalNode (.binOp .div (.constant (.int 1)) (.constant (.int 0))) = .error e) ∧
    pyDiv (.float 8) (.float 4) = .ok (.float (8 / 4)) := by
  constructor
  · exact c5_div_by_zero.1 (.constant (.int 1)) (.constant (.int 0)) (by with_unfolding_all rfl)
  · exact c5_div_by_zero.2.1 8 4 (by norm_num)

/-- Claim C6: the evaluator refines the spec's exact real semantics — on
every tree where the spec's big-step relation defines a value, the code
returns exactly that value — and the parser applies standard precedence:
`2 + 3 * 4` gives `14`, `(2 + 3) * 4` gives `20`, `2 ** 10` gives
`1024`. -/
theorem c6_correct_arithmetic :
    (∀ t v, SpecEval t v → evalNode t = .ok (.float v)) ∧
    calculator "2 + 3 * 4" = "14" ∧
    calculator "(2 + 3) * 4" = "20" ∧
    calculator "2 ** 10" = "1024" := by
  refine ⟨?_, by with_unfolding_all rfl, by with_unfolding_all rfl, by with_unfolding_all rfl⟩
  intro t v h
  induction h with
  | int n => rfl
  | float q => rfl
  | add l r x y hl hr ihl ihr => simp [evalNode, ALLOWED_BIN_OPS, ihl, ihr, pyAdd]
  | sub l r x y hl hr ihl ihr => simp [evalNode, ALLOWED_BIN_OPS, ihl, ihr, pySub]
  | mul l r x y hl hr ihl ihr => simp [evalNode, ALLOWED_BIN_OPS, ihl, ihr, pyMul]
  | div l r x y hl hr hy ihl ihr => simp [evalNode, ALLOWED_BIN_OPS, ihl, ihr, pyDiv, hy]
  | mod l r x y hl hr hy ihl ihr => simp [evalNode, ALLOWED_BIN_OPS, ihl, ihr, pyMod, hy]
  | pow l r x y hl hr hden hnz ihl ihr =>
    simp [evalNode, ALLOWED_BIN_OPS, ihl, ihr, pyPow, hden, hnz]
  | uadd a x ha ih => simp [evalNode, ALLOWED_UNARY_OPS, ih]
  | usub a x ha ih => simp [evalNode, ALLOWED_UNARY_OPS, ih, pyNeg]
  | expr b x hb ih => simpa [evalNode] using ih

/-- Witness for C6: the refinement applied to the concrete tree of
`2 + 3 * 4`. -/
theorem c6_correct_arithmetic_witness :
    evalNode (.binOp .add (.constant (.int 2))
      (.binOp .mult (.constant (.int 3)) (.constant (.int 4)))) = .ok (.float 14) := by
  have h := c6_correct_arithmetic.1 _ _
    (SpecEval.add _ _ _ _ (SpecEval.int 2)
      (SpecEval.mul _ _ _ _ (SpecEval.int 3) (SpecEval.int 4)))
  norm_num at h
  exact h

/-- Claim C7: `%` is floored real modulo — for a nonzero divisor the
result is `a - b * floor(a / b)`, which lies in `[0, b)` for a positive
divisor and in `(b, 0]` for a negative one (the sign follows the
divisor) — and `7 % 3` renders as `1`. -/
theorem c7_floored_mod :
    (∀ a b : ℚ, b ≠ 0 →
      pyMod (.float a) (.float b) = .ok (.float (a - b * (⌊a / b⌋ : ℤ)))) ∧
    (∀ a b : ℚ, 0 < b →
      0 ≤ a - b * (⌊a / b⌋ : ℤ) ∧ a - b * (⌊a / b⌋ : ℤ) < b) ∧
    (∀ a b : ℚ, b < 0 →
      b < a - b * (⌊a / b⌋ : ℤ) ∧ a - b * (⌊a / b⌋ : ℤ) ≤ 0) ∧
    calculator "7 % 3" = "1" := by
  refine ⟨?_, ?_, ?_, by with_unfolding_all rfl⟩
  · intro a b hb
    simp [pyMod, hb]
  · intro a b hb
    rw [sub_floor_mul_eq_fract a b (ne_of_gt hb)]
    constructor
    · exact mul_nonneg hb.le (Int.fract_nonneg _)
    · have h := mul_lt_mul_of_pos_left (Int.fract_lt_one (a / b)) hb
      simpa using h
  · intro a b hb
    rw [sub_floor_mul_eq_fract a b (ne_of_lt hb)]
    constructor
    · have h := mul_lt_mul_of_neg_left (Int.fract_lt_one (a / b)) hb
      simpa using h
    · exact mul_nonpos_iff.mpr (Or.inr ⟨hb.le, Int.fract_nonneg _⟩)

/-- Witness for C7 at concrete operands. -/
theorem c7_floored_mod_witness :
    pyMod (.float 7) (.float 3) = .ok (.float (7 - 3 * (⌊(7 : ℚ) / 3⌋ : ℤ))) ∧
    (0 ≤ (7 : ℚ) - 3 * (⌊(7 : ℚ) / 3⌋ : ℤ) ∧ (7 : ℚ) - 3 * (⌊(7 : ℚ) / 3⌋ : ℤ) < 3) := by
  constructor
  · exact c7_floored_mod.1 7 3 (by norm_num)
  · exact c7_floored_mod.2.1 7 3 (by norm_num)

/-- Claim C8: the tool renders an integral result without a decimal
point, via the integer decimal string of its value, and a non-integral
result through the float rendering; concretely `8 / 4` renders as `"2"`
and `1 / 2` as `"0.5"`. -/
theorem c8_integer_rendering :
    (∀ s q, safe_eval_math s = .ok (.float q) → q.den = 1 →
      calculator s = toString q.num) ∧
    (∀ s q, safe_eval_math s = .ok (.float q) → q.den ≠ 1 →
      calculator s = floatStr q) ∧
    calculator "8 / 4" = "2" ∧
    calculator "1 / 2" = "0.5" := by
  refine ⟨?_, ?_, by with_unfolding_all rfl, by with_unfolding_all rfl⟩
  · intro s q h hden
    simp [calculator, h, hden]
  · intro s q h hden
    simp [calculator, h, hden]

/-- Witness for C8 at concrete inputs. -/
theorem c8_integer_rendering_witness :
    calculator "8 / 4" = toString (2 : ℚ).num ∧
    calculator "1 / 2" = floatStr (1 / 2 : ℚ) := by
  constructor
  · exact c8_integer_rendering.1 "8 / 4" 2 (by with_unfolding_all rfl) rfl
  · exact c8_integer_rendering.2.1 "1 / 2" (1 / 2) (by with_unfolding_all rfl)
      (by with_unfolding_all decide)

/-- Claim C10 counterexample: the modelled (spec-grammar) parser rejects
the hexadecimal literal `0x10` instead of evaluating it to 16. -/
theorem c10_counterexample :
    safe_eval_math "0x10" ≠ .ok (.float 16) := by
  intro h
  have h0 : safe_eval_math "0x10" = .error (.syntaxError lexMsg) := rfl
  rw [h0] at h
  exact Except.noConfusion h

/-- Claim C10 as amended: under the spec's grammar only plain decimal
integer and floating-point literals are accepted — a decimal literal
evaluates to its value (held as a float), while the host-specific forms
(hexadecimal, underscore separators, scientific notation) are parse
failures. -/
theorem c10_amended_literals :
    safe_eval_math "16" = .ok (.float 16) ∧
    safe_eval_math "2.5" = .ok (.float (5 / 2)) ∧
    (∃ m, safe_eval_math "0x10" = .error m) ∧
    (∃ m, safe_eval_math "1_000" = .error m) ∧
    (∃ m, safe_eval_math "1e3" = .error m) := by
  refine ⟨by with_unfolding_all rfl, by with_unfolding_all rfl,
    ⟨.syntaxError lexMsg, rfl⟩, ⟨.syntaxError lexMsg, rfl⟩, ⟨.syntaxError lexMsg, rfl⟩⟩
